import Mathlib

/-!
Shallow embedding of the face-area computation engine of the `uxarray`
repository (files `src/uxarray/helpers.py` and `src/uxarray/grid/grid.py`).

Floating-point arithmetic is modelled as exact real arithmetic (`ℝ`);
`numpy` 3-vectors become the `Vec3` structure; Python functions that can
raise become `Except String` values.  The quadrature-table provider
(`get_quadratureDG.py`) and the nine-argument mesh driver
(`uxarray/grid/area.py`) are not part of the two source files; the former
is modelled as an abstract `QuadProvider` parameter and the latter is
modelled from the spec (see the doc comments below).
-/

noncomputable section

/-- A 3-component vector, the model of a length-3 `numpy` array of floats. -/
structure Vec3 where
  x : ℝ
  y : ℝ
  z : ℝ

/-- `np.cross` of two 3-vectors. -/
def npCross (a b : Vec3) : Vec3 :=
  Vec3.mk (a.y * b.z - a.z * b.y) (a.z * b.x - a.x * b.z) (a.x * b.y - a.y * b.x)

/-- Scalar multiplication of a 3-vector, the model of `v *= c` on a numpy array. -/
def npScale (v : Vec3) (c : ℝ) : Vec3 :=
  Vec3.mk (v.x * c) (v.y * c) (v.z * c)

/-- `np.sqrt (v[0]*v[0] + v[1]*v[1] + v[2]*v[2])`: the Euclidean norm of a
3-vector, written exactly the way `helpers.py` writes it (also the value of
`np.linalg.norm` on a 3-vector). -/
def norm3 (v : Vec3) : ℝ :=
  Real.sqrt (v.x * v.x + v.y * v.y + v.z * v.z)

/-- `np.deg2rad`. -/
def deg2rad (d : ℝ) : ℝ := d * Real.pi / 180

/-- `_spherical_to_cartesian_unit_` from `helpers.py` (lines 96-121).
`node.x` holds the longitude in degrees and `node.y` the latitude in degrees
(`node.z` is ignored, exactly as in the source, which reads only `node[0]`
and `node[1]`).  The source's default radius argument is `r=6371`; callers
below pass it explicitly. -/
def _spherical_to_cartesian_unit_ (node : Vec3) (r : ℝ) : Vec3 :=
  let lon := deg2rad node.x
  let lat := deg2rad node.y
  let coord := Vec3.mk (r * Real.cos lat * Real.cos lon)
                       (r * Real.cos lat * Real.sin lon)
                       (r * Real.sin lat)
  Vec3.mk (coord.x / norm3 coord) (coord.y / norm3 coord) (coord.z / norm3 coord)

/-- The surface point `dF` of `calculate_spherical_triangle_jacobian`
(`helpers.py` lines 304-308): the bilinear point
`(1-b)·((1-a)·node1 + a·node2) + b·node3`, componentwise. -/
def tensor_dF (node1 node2 node3 : Vec3) (dA dB : ℝ) : Vec3 :=
  Vec3.mk ((1 - dB) * ((1 - dA) * node1.x + dA * node2.x) + dB * node3.x)
          ((1 - dB) * ((1 - dA) * node1.y + dA * node2.y) + dB * node3.y)
          ((1 - dB) * ((1 - dA) * node1.z + dA * node2.z) + dB * node3.z)

/-- `dDaF` of `calculate_spherical_triangle_jacobian` (lines 310-312). -/
def tensor_dDaF (node1 node2 node3 : Vec3) (dA dB : ℝ) : Vec3 :=
  Vec3.mk ((1 - dB) * (node2.x - node1.x))
          ((1 - dB) * (node2.y - node1.y))
          ((1 - dB) * (node2.z - node1.z))

/-- `dDbF` of `calculate_spherical_triangle_jacobian` (lines 314-318). -/
def tensor_dDbF (node1 node2 node3 : Vec3) (dA dB : ℝ) : Vec3 :=
  Vec3.mk (-(1 - dA) * node1.x - dA * node2.x + node3.x)
          (-(1 - dA) * node1.y - dA * node2.y + node3.y)
          (-(1 - dA) * node1.z - dA * node2.z + node3.z)

/-- The surface point `dF` of
`calculate_spherical_triangle_jacobian_barycentric` (`helpers.py` lines
379-383): `a·node1 + b·node2 + (1-a-b)·node3`, componentwise. -/
def bary_dF (node1 node2 node3 : Vec3) (dA dB : ℝ) : Vec3 :=
  Vec3.mk (dA * node1.x + dB * node2.x + (1 - dA - dB) * node3.x)
          (dA * node1.y + dB * node2.y + (1 - dA - dB) * node3.y)
          (dA * node1.z + dB * node2.z + (1 - dA - dB) * node3.z)

/-- `dDaF` of the barycentric evaluator (lines 385-386): `node1 - node3`. -/
def bary_dDaF (node1 node2 node3 : Vec3) : Vec3 :=
  Vec3.mk (node1.x - node3.x) (node1.y - node3.y) (node1.z - node3.z)

/-- `dDbF` of the barycentric evaluator (lines 388-389): `node2 - node3`. -/
def bary_dDbF (node1 node2 node3 : Vec3) : Vec3 :=
  Vec3.mk (node2.x - node3.x) (node2.y - node3.y) (node2.z - node3.z)

/-- The projected-derivative formula that both evaluators apply to each of
`dDaF` and `dDbF` (`helpers.py` lines 322-338 and 393-409, where the two
blocks are literally identical):
`dG_k = dD_k·(dF·dF - dF_k²) - dF_k·(dD·dF - dD_k·dF_k)` componentwise. -/
def jacobian_dG (dD dF : Vec3) : Vec3 :=
  Vec3.mk (dD.x * (dF.y * dF.y + dF.z * dF.z) - dF.x * (dD.y * dF.y + dD.z * dF.z))
          (dD.y * (dF.x * dF.x + dF.z * dF.z) - dF.y * (dD.x * dF.x + dD.z * dF.z))
          (dD.z * (dF.x * dF.x + dF.y * dF.y) - dF.z * (dD.x * dF.x + dD.y * dF.y))

/-- The tail shared verbatim by the two Jacobian evaluators
(`helpers.py` lines 320-351 and 391-420): `dInvR = 1/√(dF·dF)`,
the two projected derivatives, scaling by `dInvR³`, cross product, norm. -/
def jacobianCore (dF dDaF dDbF : Vec3) : ℝ :=
  let dInvR := 1 / Real.sqrt (dF.x * dF.x + dF.y * dF.y + dF.z * dF.z)
  let dDenomTerm := dInvR * dInvR * dInvR
  let dDaG := npScale (jacobian_dG dDaF dF) dDenomTerm
  let dDbG := npScale (jacobian_dG dDbF dF) dDenomTerm
  let nodeCross := npCross dDaG dDbG
  Real.sqrt (nodeCross.x * nodeCross.x + nodeCross.y * nodeCross.y +
             nodeCross.z * nodeCross.z)

/-- `calculate_spherical_triangle_jacobian` from `helpers.py` (lines 282-351). -/
def calculate_spherical_triangle_jacobian (node1 node2 node3 : Vec3) (dA dB : ℝ) : ℝ :=
  jacobianCore (tensor_dF node1 node2 node3 dA dB)
               (tensor_dDaF node1 node2 node3 dA dB)
               (tensor_dDbF node1 node2 node3 dA dB)

/-- `calculate_spherical_triangle_jacobian_barycentric` from `helpers.py`
(lines 355-422); note the final `0.5 *`. -/
def calculate_spherical_triangle_jacobian_barycentric
    (node1 node2 node3 : Vec3) (dA dB : ℝ) : ℝ :=
  0.5 * jacobianCore (bary_dF node1 node2 node3 dA dB)
                     (bary_dDaF node1 node2 node3)
                     (bary_dDbF node1 node2 node3)

example : norm3 (Vec3.mk 0 0 0) = 0 := by simp [norm3]

/-- Modelled from the spec: the quadrature table provider
(`get_gauss_quadratureDG` and `get_tri_quadratureDG`, imported by
`helpers.py` from `get_quadratureDG.py`, which is not under `src/`).
Per spec 4.1, for a Gaussian rule `gauss order` yields the row of 1D
abscissae (`dG[0]` in the source) and the weights `dW`; for a triangular
rule `tri order` yields the rows of 2-component barycentric points
(`dG[p][0]`, `dG[p][1]`) and the weights `dW`.  The numeric tables are
left abstract: theorems below hold for every provider. -/
structure QuadProvider where
  gauss : ℕ → List ℝ × List ℝ
  tri : ℕ → List (ℝ × ℝ) × List ℝ

/-- The node assembled for index `j` of a face inside `calculate_face_area`
(`helpers.py` lines 174-180): `np.array([x[j], y[j], z[j]])`, projected by
`_spherical_to_cartesian_unit_` (with its default radius 6371) exactly when
`coords_type == "spherical"`. -/
def faceNode (coords_type : String) (x y z : List ℝ) (j : ℕ) : Vec3 :=
  let node := Vec3.mk (x.getD j 0) (y.getD j 0) (z.getD j 0)
  if coords_type = "spherical" then _spherical_to_cartesian_unit_ node 6371 else node

/-- `calculate_face_area` from `helpers.py` (lines 126-196), parametrized by
the quadrature provider `qp` (see `QuadProvider`).  The `area += ...`
accumulation loops of the source become `List.foldl` over `List.range`;
`num_triangles = num_nodes - 2` is Python integer subtraction, whose
`range` is empty when `num_nodes < 3`, matching truncated `Nat`
subtraction.  The `raise ValueError` branch becomes `Except.error`. -/
def calculate_face_area (qp : QuadProvider) (x y z : List ℝ)
    (quadrature_rule : String) (order : ℕ) (coords_type : String) :
    Except String ℝ :=
  if quadrature_rule = "gaussian" then
    Except.ok ((List.range (x.length - 2)).foldl (fun area j =>
      (List.range (qp.gauss order).2.length).foldl (fun area p =>
        (List.range (qp.gauss order).2.length).foldl (fun area q =>
          area + (qp.gauss order).2.getD p 0 * (qp.gauss order).2.getD q 0 *
            calculate_spherical_triangle_jacobian
              (faceNode coords_type x y z 0)
              (faceNode coords_type x y z (j + 1))
              (faceNode coords_type x y z (j + 2))
              ((qp.gauss order).1.getD p 0) ((qp.gauss order).1.getD q 0)) area) area) 0)
  else if quadrature_rule = "triangular" then
    Except.ok ((List.range (x.length - 2)).foldl (fun area j =>
      (List.range (qp.tri order).2.length).foldl (fun area p =>
        area + (qp.tri order).2.getD p 0 *
          calculate_spherical_triangle_jacobian_barycentric
            (faceNode coords_type x y z 0)
            (faceNode coords_type x y z (j + 1))
            (faceNode coords_type x y z (j + 2))
            ((qp.tri order).1.getD p (0, 0)).1 ((qp.tri order).1.getD p (0, 0)).2) area) 0)
  else Except.error "Invalid quadrature rule, specify gaussian or triangular"

/-- Python list indexing `arr[i]` for a possibly negative index `i`
(`helpers.py` indexes the node arrays with ids taken from a fill-padded
connectivity row, and the usual fill value is `-1`): a negative index
counts from the end.  Out-of-range access is modelled by the junk value 0. -/
def pyIndex (arr : List ℝ) (i : ℤ) : ℝ :=
  if i < 0 then arr.getD ((arr.length : ℤ) + i).toNat 0 else arr.getD i.toNat 0

/-- `get_all_face_area_from_coords` from `helpers.py` (lines 199-278): for
each connectivity row it gathers `face_x`, `face_y` (and `face_z` only when
`dim > 2`, else the zeros it was initialised with) over ALL entries of the
row, then calls `calculate_face_area`.  Each face's outcome is recorded as
one `Except` entry. -/
def get_all_face_area_from_coords (qp : QuadProvider) (x y z : List ℝ)
    (face_nodes : List (List ℤ)) (dim : ℕ) (quadrature_rule : String)
    (order : ℕ) (coords_type : String) : List (Except String ℝ) :=
  face_nodes.map (fun face =>
    calculate_face_area qp (face.map (pyIndex x)) (face.map (pyIndex y))
      (if dim > 2 then face.map (pyIndex z) else List.replicate face.length 0)
      quadrature_rule order coords_type)

/-- Modelled from the spec: the per-face step of the nine-argument mesh
driver of `uxarray/grid/area.py` (not under `src/`; `grid/grid.py` imports
it as `get_all_face_area_from_coords`).  Spec 4.5: gather the first
`node_counts[i]` node ids of the row (ignoring fill-padded trailing
entries), look up their coordinates (z forced to 0 when `dim <= 2`), and
delegate to `calculate_face_area`. -/
def UxGridArea.face_area_entry (qp : QuadProvider) (x y z : List ℝ) (dim : ℕ)
    (quadrature_rule : String) (order : ℕ) (coords_type : String)
    (face : List ℤ) (nNodes : ℕ) : Except String ℝ :=
  calculate_face_area qp ((face.take nNodes).map (pyIndex x))
    ((face.take nNodes).map (pyIndex y))
    (if dim > 2 then (face.take nNodes).map (pyIndex z)
     else List.replicate (face.take nNodes).length 0)
    quadrature_rule order coords_type

/-- Modelled from the spec: the nine-argument
`get_all_face_area_from_coords(x, y, z, face_nodes, nNodes_per_face, dim,
quadrature_rule, order, coords_type)` of `uxarray/grid/area.py` (not under
`src/`), per spec 4.5: one area per face, in face order, each produced by
`UxGridArea.face_area_entry` from that face's row and node count. -/
def UxGridArea.get_all_face_area_from_coords (qp : QuadProvider)
    (x y z : List ℝ) (face_nodes : List (List ℤ)) (nNodes_per_face : List ℕ)
    (dim : ℕ) (quadrature_rule : String) (order : ℕ) (coords_type : String) :
    List (Except String ℝ) :=
  (face_nodes.zip nNodes_per_face).map (fun fc =>
    UxGridArea.face_area_entry qp x y z dim quadrature_rule order coords_type fc.1 fc.2)

/-- The substring test `"degree" in units` of `Grid.compute_face_areas`
(`grid/grid.py` line 560), modelled via `String.splitOn`: a separator that
occurs in the string splits it into more than one part. -/
def strContainsDegree (units : String) : Bool :=
  decide (1 < (units.splitOn "degree").length)

/-- The slice of the `Grid` class of `grid/grid.py` that the face-area
facade reads and writes: node coordinates (`Mesh2_node_x` holding
longitudes with a `units` attribute, `Mesh2_node_y`, the protected
`_Mesh2_node_z`), connectivity, per-face node counts, the declared
`topology_dimension`, and the single cached-result slot `self._face_areas`
(initialised to `None` in `__init__`). -/
structure Grid where
  Mesh2_node_x : List ℝ
  Mesh2_node_x_units : String
  Mesh2_node_y : List ℝ
  Mesh2_node_z : List ℝ
  Mesh2_face_nodes : List (List ℤ)
  nNodes_per_face : List ℕ
  topology_dimension : ℕ
  face_areas_cache : Option (List (Except String ℝ))

/-- `Grid.compute_face_areas` from `grid/grid.py` (lines 528-589): detect
`coords_type` from whether the unit string contains "degree", force z to
zeros unless `topology_dimension > 2`, call the mesh driver, store the
result in the cache slot and return it.  The source's Python defaults are
`quadrature_rule="triangular", order=4`; callers pass them explicitly.
Returns the computed array together with the updated grid state. -/
def Grid.compute_face_areas (qp : QuadProvider) (g : Grid)
    (quadrature_rule : String) (order : ℕ) :
    List (Except String ℝ) × Grid :=
  let coords_type := if strContainsDegree g.Mesh2_node_x_units then "spherical"
                     else "cartesian"
  let z := if g.topology_dimension > 2 then g.Mesh2_node_z
           else List.replicate g.Mesh2_node_x.length 0
  let res := UxGridArea.get_all_face_area_from_coords qp g.Mesh2_node_x
    g.Mesh2_node_y z g.Mesh2_face_nodes g.nNodes_per_face
    g.topology_dimension quadrature_rule order coords_type
  (res, { g with face_areas_cache := some res })

/-- The `face_areas` property of `grid/grid.py` (lines 454-460): return the
cached result when present, else compute with the default rule and order
(`"triangular"`, 4). -/
def Grid.face_areas (qp : QuadProvider) (g : Grid) :
    List (Except String ℝ) × Grid :=
  match g.face_areas_cache with
  | some a => (a, g)
  | none => Grid.compute_face_areas qp g "triangular" 4

/-- `Grid.calculate_total_face_area` from `grid/grid.py` (lines 507-526):
always call `compute_face_areas` with the given rule and order, then return
`np.sum` of the per-face array (a sum that exists only when every face
computed without error). -/
def Grid.calculate_total_face_area (qp : QuadProvider) (g : Grid)
    (quadrature_rule : String) (order : ℕ) : Except String ℝ × Grid :=
  let fg := Grid.compute_face_areas qp g quadrature_rule order
  ((fg.1.mapM id).map List.sum, fg.2)

/-- A concrete quadrature provider (empty tables), used to instantiate the
witness theorems. -/
def trivialQP : QuadProvider :=
  QuadProvider.mk (fun _ => ([], [])) (fun _ => ([], []))

/-- Following the spec words of 4.2: the vector
`(r·cos(lat)·cos(lon), r·cos(lat)·sin(lon), r·sin(lat))` divided by its
Euclidean norm.  Compared with the source definition
`_spherical_to_cartesian_unit_` in the claim about 4.2. -/
def spec_projected_vector (node : Vec3) (r : ℝ) : Vec3 :=
  let lon := deg2rad node.x
  let lat := deg2rad node.y
  let coord := Vec3.mk (r * Real.cos lat * Real.cos lon)
                       (r * Real.cos lat * Real.sin lon)
                       (r * Real.sin lat)
  Vec3.mk (coord.x / norm3 coord) (coord.y / norm3 coord) (coord.z / norm3 coord)

lemma spherical_unit_canonical (node : Vec3) (r : ℝ) (h : 0 < r) :
    _spherical_to_cartesian_unit_ node r =
      Vec3.mk (Real.cos (deg2rad node.y) * Real.cos (deg2rad node.x))
              (Real.cos (deg2rad node.y) * Real.sin (deg2rad node.x))
              (Real.sin (deg2rad node.y)) := by
  have h1 := Real.sin_sq_add_cos_sq (deg2rad node.y)
  have h2 := Real.sin_sq_add_cos_sq (deg2rad node.x)
  have key : (r * Real.cos (deg2rad node.y) * Real.cos (deg2rad node.x)) *
      (r * Real.cos (deg2rad node.y) * Real.cos (deg2rad node.x)) +
      (r * Real.cos (deg2rad node.y) * Real.sin (deg2rad node.x)) *
      (r * Real.cos (deg2rad node.y) * Real.sin (deg2rad node.x)) +
      (r * Real.sin (deg2rad node.y)) * (r * Real.sin (deg2rad node.y)) = r ^ 2 := by
    linear_combination (r ^ 2 * Real.cos (deg2rad node.y) ^ 2) * h2 + r ^ 2 * h1
  have hnorm : norm3 (Vec3.mk
      (r * Real.cos (deg2rad node.y) * Real.cos (deg2rad node.x))
      (r * Real.cos (deg2rad node.y) * Real.sin (deg2rad node.x))
      (r * Real.sin (deg2rad node.y))) = r := by
    rw [norm3]
    dsimp only
    rw [key]
    exact Real.sqrt_sq h.le
  simp only [_spherical_to_cartesian_unit_]
  rw [hnorm]
  have hr : r ≠ 0 := ne_of_gt h
  simp only [Vec3.mk.injEq]
  refine ⟨?_, ?_, ?_⟩ <;> field_simp <;> ring

/-- Claim C6: for every latitude/longitude pair (in degrees) the coordinate
projector returns the vector `(r·cos(lat)·cos(lon), r·cos(lat)·sin(lon),
r·sin(lat))` divided by its Euclidean norm, and every projected point has
Euclidean norm exactly 1, poles included. -/
theorem spherical_to_cartesian_unit_norm_one (node : Vec3) (r : ℝ) (h : 0 < r) :
    _spherical_to_cartesian_unit_ node r = spec_projected_vector node r ∧
    norm3 (_spherical_to_cartesian_unit_ node r) = 1 := by
  refine ⟨rfl, ?_⟩
  rw [spherical_unit_canonical node r h]
  have h1 := Real.sin_sq_add_cos_sq (deg2rad node.y)
  have h2 := Real.sin_sq_add_cos_sq (deg2rad node.x)
  have key : (Real.cos (deg2rad node.y) * Real.cos (deg2rad node.x)) *
      (Real.cos (deg2rad node.y) * Real.cos (deg2rad node.x)) +
      (Real.cos (deg2rad node.y) * Real.sin (deg2rad node.x)) *
      (Real.cos (deg2rad node.y) * Real.sin (deg2rad node.x)) +
      Real.sin (deg2rad node.y) * Real.sin (deg2rad node.y) = 1 := by
    linear_combination (Real.cos (deg2rad node.y)) ^ 2 * h2 + h1
  rw [norm3]
  dsimp only
  rw [key, Real.sqrt_one]

/-- Witness for C6 at the equator point, with the source's radius 6371. -/
theorem spherical_to_cartesian_unit_norm_one_witness :
    (0 : ℝ) < 6371 ∧
    (_spherical_to_cartesian_unit_ (Vec3.mk 0 0 0) 6371 =
        spec_projected_vector (Vec3.mk 0 0 0) 6371 ∧
      norm3 (_spherical_to_cartesian_unit_ (Vec3.mk 0 0 0) 6371) = 1) :=
  ⟨by norm_num, spherical_to_cartesian_unit_norm_one (Vec3.mk 0 0 0) 6371 (by norm_num)⟩

/-- Claim C10 (implicit): the output of the spherical-to-cartesian
projector is independent of its radius parameter, for positive radii: the
radius scaling cancels in the normalization by the Euclidean norm. -/
theorem spherical_to_cartesian_radius_independent (node : Vec3) (r1 r2 : ℝ)
    (h1 : 0 < r1) (h2 : 0 < r2) :
    _spherical_to_cartesian_unit_ node r1 = _spherical_to_cartesian_unit_ node r2 := by
  rw [spherical_unit_canonical node r1 h1, spherical_unit_canonical node r2 h2]

/-- Witness for C10 with radii 1 and 6371. -/
theorem spherical_to_cartesian_radius_independent_witness :
    (0 : ℝ) < 1 ∧ (0 : ℝ) < 6371 ∧
    _spherical_to_cartesian_unit_ (Vec3.mk 30 45 0) 1 =
      _spherical_to_cartesian_unit_ (Vec3.mk 30 45 0) 6371 :=
  ⟨by norm_num, by norm_num,
    spherical_to_cartesian_radius_independent (Vec3.mk 30 45 0) 1 6371
      (by norm_num) (by norm_num)⟩

/-- Claim C7: the barycentric-parameterized Jacobian evaluator uses the
surface point `F(a,b) = a·p1 + b·p2 + (1-a-b)·p3` with constant partials
`p1 - p3` and `p2 - p3`, applies the same derivative-of-normalized
projection procedure (`jacobianCore`) as the tensor-parameterized
evaluator, and returns exactly half the tensor-style cross-product norm. -/
theorem jacobian_barycentric_half_of_tensor_core (p1 p2 p3 : Vec3) (dA dB : ℝ) :
    (calculate_spherical_triangle_jacobian_barycentric p1 p2 p3 dA dB =
      0.5 * jacobianCore
        (Vec3.mk (dA * p1.x + dB * p2.x + (1 - dA - dB) * p3.x)
                 (dA * p1.y + dB * p2.y + (1 - dA - dB) * p3.y)
                 (dA * p1.z + dB * p2.z + (1 - dA - dB) * p3.z))
        (Vec3.mk (p1.x - p3.x) (p1.y - p3.y) (p1.z - p3.z))
        (Vec3.mk (p2.x - p3.x) (p2.y - p3.y) (p2.z - p3.z))) ∧
    (calculate_spherical_triangle_jacobian p1 p2 p3 dA dB =
      jacobianCore (tensor_dF p1 p2 p3 dA dB) (tensor_dDaF p1 p2 p3 dA dB)
        (tensor_dDbF p1 p2 p3 dA dB)) :=
  ⟨rfl, rfl⟩

lemma jacobianCore_zero_dF (dDaF dDbF : Vec3) :
    jacobianCore (Vec3.mk 0 0 0) dDaF dDbF = 0 := by
  simp [jacobianCore, jacobian_dG, npScale, npCross]

/-- Claim C3 failing input, evaluated on the code: with corners `(1,0,0)`,
`(-1,0,0)`, `(0,1,0)` the surface point `F` lies at the coordinate origin
(at `(a,b) = (1/2, 0)` for the tensor evaluator and `(1/2, 1/2)` for the
barycentric one), yet both evaluators return a plain number (the junk value
of `1/√0`-arithmetic; `NaN` in IEEE floats) instead of surfacing any
`DegenerateGeometry` error: neither has an error outcome in its type, and
no zero-norm check exists in the source. -/
theorem jacobian_degenerate_origin_no_error :
    tensor_dF (Vec3.mk 1 0 0) (Vec3.mk (-1) 0 0) (Vec3.mk 0 1 0) (1 / 2) 0 =
        Vec3.mk 0 0 0 ∧
    calculate_spherical_triangle_jacobian (Vec3.mk 1 0 0) (Vec3.mk (-1) 0 0)
        (Vec3.mk 0 1 0) (1 / 2) 0 = 0 ∧
    bary_dF (Vec3.mk 1 0 0) (Vec3.mk (-1) 0 0) (Vec3.mk 0 1 0) (1 / 2) (1 / 2) =
        Vec3.mk 0 0 0 ∧
    calculate_spherical_triangle_jacobian_barycentric (Vec3.mk 1 0 0)
        (Vec3.mk (-1) 0 0) (Vec3.mk 0 1 0) (1 / 2) (1 / 2) = 0 := by
  have ht : tensor_dF (Vec3.mk 1 0 0) (Vec3.mk (-1) 0 0) (Vec3.mk 0 1 0) (1 / 2) 0 =
      Vec3.mk 0 0 0 := by
    simp only [tensor_dF, Vec3.mk.injEq]
    norm_num
  have hb : bary_dF (Vec3.mk 1 0 0) (Vec3.mk (-1) 0 0) (Vec3.mk 0 1 0) (1 / 2) (1 / 2) =
      Vec3.mk 0 0 0 := by
    simp only [bary_dF, Vec3.mk.injEq]
    norm_num
  refine ⟨ht, ?_, hb, ?_⟩
  · rw [calculate_spherical_triangle_jacobian, ht, jacobianCore_zero_dF]
  · rw [calculate_spherical_triangle_jacobian_barycentric, hb, jacobianCore_zero_dF,
      mul_zero]

/-- Claim C4 failing input, evaluated on the code: a face with only 2 nodes
makes `num_triangles = 0`, the triangle loop empty, and
`calculate_face_area` returns the value `0.0` (for either rule) instead of
failing with any `InvalidFaceDegree` error. -/
theorem calculate_face_area_small_face_returns_zero (qp : QuadProvider) :
    calculate_face_area qp [0, 0] [0, 0] [0, 0] "triangular" 4 "cartesian" =
        Except.ok 0 ∧
    calculate_face_area qp [0, 0] [0, 0] [0, 0] "gaussian" 4 "cartesian" =
        Except.ok 0 :=
  ⟨rfl, rfl⟩

lemma cfa_ok_of_rule (qp : QuadProvider) (x y z : List ℝ) (rule : String)
    (order : ℕ) (ct : String) (h : rule = "gaussian" ∨ rule = "triangular") :
    ∃ a, calculate_face_area qp x y z rule order ct = Except.ok a := by
  rcases h with h | h <;> subst h <;> simp only [calculate_face_area]
  · exact ⟨_, by rw [if_pos trivial]⟩
  · exact ⟨_, by rw [if_neg (by decide), if_pos trivial]⟩

lemma cfa_error_of_rule (qp : QuadProvider) (x y z : List ℝ) (rule : String)
    (order : ℕ) (ct : String) (hg : rule ≠ "gaussian") (ht : rule ≠ "triangular") :
    calculate_face_area qp x y z rule order ct =
      Except.error "Invalid quadrature rule, specify gaussian or triangular" := by
  simp only [calculate_face_area]
  rw [if_neg hg, if_neg ht]

/-- Claim C5: `calculate_face_area` produces an error exactly when the rule
string is neither "gaussian" nor "triangular"; in that case the result is
the `ValueError` emitted before any area accumulation (its message does not
depend on the face at all), otherwise an area value is produced. -/
theorem calculate_face_area_error_iff_bad_rule (qp : QuadProvider)
    (x y z : List ℝ) (rule : String) (order : ℕ) (coords_type : String) :
    ((∃ e, calculate_face_area qp x y z rule order coords_type = Except.error e) ↔
      (rule ≠ "gaussian" ∧ rule ≠ "triangular")) ∧
    (rule = "gaussian" ∨ rule = "triangular" ∨
      calculate_face_area qp x y z rule order coords_type =
        Except.error "Invalid quadrature rule, specify gaussian or triangular") := by
  constructor
  · constructor
    · rintro ⟨e, he⟩
      by_cases hg : rule = "gaussian"
      · obtain ⟨a, ha⟩ := cfa_ok_of_rule qp x y z rule order coords_type (Or.inl hg)
        rw [ha] at he
        exact absurd he (by simp)
      · by_cases ht : rule = "triangular"
        · obtain ⟨a, ha⟩ := cfa_ok_of_rule qp x y z rule order coords_type (Or.inr ht)
          rw [ha] at he
          exact absurd he (by simp)
        · exact ⟨hg, ht⟩
    · rintro ⟨hg, ht⟩
      exact ⟨_, cfa_error_of_rule qp x y z rule order coords_type hg ht⟩
  · by_cases hg : rule = "gaussian"
    · exact Or.inl hg
    · by_cases ht : rule = "triangular"
      · exact Or.inr (Or.inl ht)
      · exact Or.inr (Or.inr (cfa_error_of_rule qp x y z rule order coords_type hg ht))

lemma foldl_add_eq_sum {g : ℝ → ℕ → ℝ} {f : ℕ → ℝ}
    (H : ∀ a i, g a i = a + f i) :
    ∀ (l : List ℕ) (a : ℝ), l.foldl g a = a + (l.map f).sum := by
  intro l
  induction l with
  | nil => intro a; simp
  | cons i t ih =>
    intro a
    rw [List.foldl_cons, ih, H, List.map_cons, List.sum_cons]
    ring

lemma map_range_sum (f : ℕ → ℝ) : ∀ n : ℕ,
    ((List.range n).map f).sum = ∑ i ∈ Finset.range n, f i := by
  intro n
  induction n with
  | zero => simp
  | succ n ih =>
    rw [List.range_succ, List.map_append, List.sum_append, ih, Finset.sum_range_succ]
    simp

lemma foldl_range_eq_sum {g : ℝ → ℕ → ℝ} {f : ℕ → ℝ} (n : ℕ) (a : ℝ)
    (H : ∀ a i, g a i = a + f i) :
    (List.range n).foldl g a = a + ∑ i ∈ Finset.range n, f i := by
  rw [foldl_add_eq_sum H, map_range_sum]

/-- Claim C1: for a face of `N ≥ 3` nodes, `calculate_face_area`
fan-triangulates into the `N-2` triangles `(node 0, node (j+1), node (j+2))`
and returns the accumulated weighted-Jacobian sum: a double loop with
weights `dW[p]·dW[q]` over the tensor Jacobian for the gaussian rule, a
single loop with weights `dW[p]` over the barycentric Jacobian for the
triangular rule. -/
theorem calculate_face_area_fan_quadrature_sum (qp : QuadProvider)
    (x y z : List ℝ) (order : ℕ) (coords_type : String)
    (h : 3 ≤ x.length) :
    (calculate_face_area qp x y z "gaussian" order coords_type =
      Except.ok (∑ j ∈ Finset.range (x.length - 2),
        ∑ p ∈ Finset.range (qp.gauss order).2.length,
          ∑ q ∈ Finset.range (qp.gauss order).2.length,
            (qp.gauss order).2.getD p 0 * (qp.gauss order).2.getD q 0 *
              calculate_spherical_triangle_jacobian
                (faceNode coords_type x y z 0)
                (faceNode coords_type x y z (j + 1))
                (faceNode coords_type x y z (j + 2))
                ((qp.gauss order).1.getD p 0) ((qp.gauss order).1.getD q 0))) ∧
    (calculate_face_area qp x y z "triangular" order coords_type =
      Except.ok (∑ j ∈ Finset.range (x.length - 2),
        ∑ p ∈ Finset.range (qp.tri order).2.length,
          (qp.tri order).2.getD p 0 *
            calculate_spherical_triangle_jacobian_barycentric
              (faceNode coords_type x y z 0)
              (faceNode coords_type x y z (j + 1))
              (faceNode coords_type x y z (j + 2))
              ((qp.tri order).1.getD p (0, 0)).1 ((qp.tri order).1.getD p (0, 0)).2)) := by
  constructor
  · simp only [calculate_face_area]
    rw [if_pos trivial]
    congr 1
    refine (foldl_range_eq_sum _ _ (fun a j => ?_)).trans (zero_add _)
    exact foldl_range_eq_sum _ _ (fun a2 p =>
      foldl_range_eq_sum _ _ (fun a3 q => rfl))
  · simp only [calculate_face_area]
    rw [if_neg (by decide), if_pos trivial]
    congr 1
    refine (foldl_range_eq_sum _ _ (fun a j => ?_)).trans (zero_add _)
    exact foldl_range_eq_sum _ _ (fun a2 p => rfl)

/-- Witness for C1 on a concrete 3-node face. -/
theorem calculate_face_area_fan_quadrature_sum_witness :
    3 ≤ ([1, 2, 3] : List ℝ).length ∧
    ((calculate_face_area trivialQP [1, 2, 3] [0, 0, 0] [0, 0, 0] "gaussian" 1 "cartesian" =
      Except.ok (∑ j ∈ Finset.range (([1, 2, 3] : List ℝ).length - 2),
        ∑ p ∈ Finset.range (trivialQP.gauss 1).2.length,
          ∑ q ∈ Finset.range (trivialQP.gauss 1).2.length,
            (trivialQP.gauss 1).2.getD p 0 * (trivialQP.gauss 1).2.getD q 0 *
              calculate_spherical_triangle_jacobian
                (faceNode "cartesian" [1, 2, 3] [0, 0, 0] [0, 0, 0] 0)
                (faceNode "cartesian" [1, 2, 3] [0, 0, 0] [0, 0, 0] (j + 1))
                (faceNode "cartesian" [1, 2, 3] [0, 0, 0] [0, 0, 0] (j + 2))
                ((trivialQP.gauss 1).1.getD p 0) ((trivialQP.gauss 1).1.getD q 0))) ∧
    (calculate_face_area trivialQP [1, 2, 3] [0, 0, 0] [0, 0, 0] "triangular" 1 "cartesian" =
      Except.ok (∑ j ∈ Finset.range (([1, 2, 3] : List ℝ).length - 2),
        ∑ p ∈ Finset.range (trivialQP.tri 1).2.length,
          (trivialQP.tri 1).2.getD p 0 *
            calculate_spherical_triangle_jacobian_barycentric
              (faceNode "cartesian" [1, 2, 3] [0, 0, 0] [0, 0, 0] 0)
              (faceNode "cartesian" [1, 2, 3] [0, 0, 0] [0, 0, 0] (j + 1))
              (faceNode "cartesian" [1, 2, 3] [0, 0, 0] [0, 0, 0] (j + 2))
              ((trivialQP.tri 1).1.getD p (0, 0)).1 ((trivialQP.tri 1).1.getD p (0, 0)).2))) :=
  ⟨by norm_num,
    calculate_face_area_fan_quadrature_sum trivialQP [1, 2, 3] [0, 0, 0] [0, 0, 0]
      1 "cartesian" (by norm_num)⟩

lemma take_length_append {α : Type} (l₁ l₂ : List α) :
    (l₁ ++ l₂).take l₁.length = l₁ := by
  induction l₁ with
  | nil => rfl
  | cons a t ih => simp [ih]

/-- Claim C2: the mesh driver called by `Grid.compute_face_areas` uses only
the first `node_counts[i]` ids of each connectivity row, so appending any
padding (in particular fill-sentinel padding) beyond the true node count
leaves every face's computed area unchanged. -/
theorem face_area_ignores_fill_padding (qp : QuadProvider) (x y z : List ℝ)
    (dim : ℕ) (quadrature_rule : String) (order : ℕ) (coords_type : String)
    (faces pads : List (List ℤ)) (h : pads.length = faces.length) :
    UxGridArea.get_all_face_area_from_coords qp x y z
        (List.zipWith (· ++ ·) faces pads) (faces.map List.length)
        dim quadrature_rule order coords_type =
      UxGridArea.get_all_face_area_from_coords qp x y z faces
        (faces.map List.length) dim quadrature_rule order coords_type := by
  induction faces generalizing pads with
  | nil => rfl
  | cons f fs ih =>
    cases pads with
    | nil => exact absurd h (by simp)
    | cons p ps =>
      have htl := ih ps (by simpa using h)
      show UxGridArea.face_area_entry qp x y z dim quadrature_rule order coords_type
            (f ++ p) f.length ::
          UxGridArea.get_all_face_area_from_coords qp x y z
            (List.zipWith (· ++ ·) fs ps) (fs.map List.length)
            dim quadrature_rule order coords_type =
        UxGridArea.face_area_entry qp x y z dim quadrature_rule order coords_type
            f f.length ::
          UxGridArea.get_all_face_area_from_coords qp x y z fs
            (fs.map List.length) dim quadrature_rule order coords_type
      rw [htl]
      simp only [UxGridArea.face_area_entry, take_length_append, List.take_length]

/-- Witness for C2: one face of a single node id, padded with the fill
sentinel -1. -/
theorem face_area_ignores_fill_padding_witness :
    ([[(-1 : ℤ)]] : List (List ℤ)).length = ([[(0 : ℤ)]] : List (List ℤ)).length ∧
    (UxGridArea.get_all_face_area_from_coords trivialQP [0] [0] [0]
        (List.zipWith (· ++ ·) [[(0 : ℤ)]] [[(-1 : ℤ)]])
        (([[(0 : ℤ)]] : List (List ℤ)).map List.length) 2 "triangular" 4 "cartesian" =
      UxGridArea.get_all_face_area_from_coords trivialQP [0] [0] [0] [[(0 : ℤ)]]
        (([[(0 : ℤ)]] : List (List ℤ)).map List.length) 2 "triangular" 4 "cartesian") :=
  ⟨rfl, face_area_ignores_fill_padding trivialQP [0] [0] [0] 2 "triangular" 4
    "cartesian" [[(0 : ℤ)]] [[(-1 : ℤ)]] rfl⟩

/-- Claim C9: when the topological dimension is at most 2, the z node
coordinate array is never read by the driver of `helpers.py` (the per-face
`face_z` stays at its zero initialisation), so two runs that differ only in
z produce the same face-area array. -/
theorem driver_independent_of_z_when_dim_le_two (qp : QuadProvider)
    (x y zA zB : List ℝ) (face_nodes : List (List ℤ)) (dim : ℕ)
    (quadrature_rule : String) (order : ℕ) (coords_type : String)
    (h : dim ≤ 2) :
    get_all_face_area_from_coords qp x y zA face_nodes dim
        quadrature_rule order coords_type =
      get_all_face_area_from_coords qp x y zB face_nodes dim
        quadrature_rule order coords_type := by
  have hd : ¬dim > 2 := by omega
  simp only [get_all_face_area_from_coords, if_neg hd]

/-- Witness for C9: one triangular face, two different z arrays, dim 2. -/
theorem driver_independent_of_z_when_dim_le_two_witness :
    (2 : ℕ) ≤ 2 ∧
    get_all_face_area_from_coords trivialQP [0] [0] [0] [[0, 0, 0]] 2
        "triangular" 4 "spherical" =
      get_all_face_area_from_coords trivialQP [0] [0] [5] [[0, 0, 0]] 2
        "triangular" 4 "spherical" :=
  ⟨by norm_num,
    driver_independent_of_z_when_dim_le_two trivialQP [0] [0] [0] [5]
      [[0, 0, 0]] 2 "triangular" 4 "spherical" (by norm_num)⟩

/-- Claim C8: `calculate_total_face_area(rule, order)` is `np.sum` over a
fresh `compute_face_areas(rule, order)` run; `compute_face_areas` never
consults the cache slot (it recomputes even when a cached array from a
different rule or order exists); the `face_areas` property returns the
cached array when present and otherwise computes with the default rule
`"triangular"` and order 4. -/
theorem grid_total_and_cached_face_areas (qp : QuadProvider) (g : Grid)
    (quadrature_rule : String) (order : ℕ)
    (c : Option (List (Except String ℝ))) :
    ((Grid.calculate_total_face_area qp g quadrature_rule order).1 =
        (((Grid.compute_face_areas qp g quadrature_rule order).1).mapM id).map
          List.sum) ∧
    ((Grid.compute_face_areas qp { g with face_areas_cache := c }
        quadrature_rule order).1 =
      (Grid.compute_face_areas qp g quadrature_rule order).1) ∧
    (Grid.face_areas qp g = match g.face_areas_cache with
      | some a => (a, g)
      | none => Grid.compute_face_areas qp g "triangular" 4) := by
  refine ⟨rfl, rfl, ?_⟩
  rcases hc : g.face_areas_cache with _ | a <;> simp [Grid.face_areas, hc]

end
